/-
Verification of the SJTU-Chatbot MCP server and jAccount session manager.

The definitions below are a shallow embedding of the Python sources
`sjtu_chatbot/mcp_server/server.py` and
`sjtu_chatbot/mcp_server/jaccount_login.py`.

Python JSON values are embedded as the inductive type `JVal`; Python dicts
appear as association lists (first binding wins, as dict keys are unique in
every value the code builds).  Fallible Python steps (statements that can
raise) are embedded in `Except String`, the `String` being the Python
exception's `str(e)` rendering; outbound HTTP calls, which are external
effects, are supplied as explicit environment inputs.
-/
import Mathlib

namespace SJTUChatbot

/-- Embedding of a parsed JSON value (the result of `json.loads`). -/
inductive JVal : Type where
  | null : JVal
  | bool : Bool → JVal
  | num : Int → JVal
  | str : String → JVal
  | arr : List JVal → JVal
  | obj : List (String × JVal) → JVal

/-- Python type name of a value, as it appears in `AttributeError` messages. -/
def pyTypeName : JVal → String
  | .null => "NoneType"
  | .bool _ => "bool"
  | .num _ => "int"
  | .str _ => "str"
  | .arr _ => "list"
  | .obj _ => "dict"

/-- A single-quote character as a string (used in Python error messages). -/
def pyQ : String := String.singleton (Char.ofNat 39)

/-- The message of the `AttributeError` Python raises when `attr` is accessed
on a value of type `ty`. -/
def attrErrMsg (ty attr : String) : String :=
  pyQ ++ ty ++ pyQ ++ " object has no attribute " ++ pyQ ++ attr ++ pyQ

/-- The message of the `UnboundLocalError` raised in `_handle_tools_call`
when the local `result` is read before assignment: the invocation that
would assign it is commented out, but the later `result = json.dumps(...)`
statement makes `result` a local of the function, so the read raises
`UnboundLocalError` with this message (Python 3.11+ wording). -/
def unboundLocalResultMsg : String :=
  "cannot access local variable " ++ pyQ ++ "result" ++ pyQ ++
    " where it is not associated with a value"

/-- Association-list lookup (Python dict lookup; keys are unique in every
dict the code builds, so first-match semantics coincide). -/
def alookup {β : Type} : List (String × β) → String → Option β
  | [], _ => none
  | (k, v) :: rest, key => if k = key then some v else alookup rest key

/-- Python `fs.get(k, d)` on a parsed JSON object already known to be a dict. -/
def pyObjGet (fs : List (String × JVal)) (k : String) (d : JVal) : JVal :=
  (alookup fs k).getD d

/-- Python `v.get(k, d)` on an arbitrary value: raises `AttributeError` unless `v`
is a dict (mirrors Python attribute lookup on `params`). -/
def pyGetD (v : JVal) (k : String) (d : JVal) : Except String JVal :=
  match v with
  | .obj fs => .ok (pyObjGet fs k d)
  | _ => .error (attrErrMsg (pyTypeName v) "get")

/-- Python `v == lit` for a string literal `lit`: true only when `v` is that
string (Python `==` between a string and any non-string is `False`). -/
def JVal.isStrEq : JVal → String → Bool
  | .str s, t => s == t
  | _, _ => false

/-- Python `v is None`. -/
def JVal.isNull : JVal → Bool
  | .null => true
  | _ => false

/-- Structural list-prefix test (Char lists), executable by kernel reduction. -/
def listPre : List Char → List Char → Bool
  | [], _ => true
  | _ :: _, [] => false
  | a :: as, b :: bs => a == b && listPre as bs

/-- Occurrence of `pat` inside `hay` (Char lists). -/
def listSubstr (pat : List Char) : List Char → Bool
  | [] => listPre pat []
  | c :: t => listPre pat (c :: t) || listSubstr pat t

/-- Python's substring containment `pat in hay` on strings. -/
def containsSub (hay pat : String) : Bool :=
  listSubstr pat.toList hay.toList

/-- Python `v.startswith(pre)`: raises `AttributeError` unless `v` is a string. -/
def pyStartsWith (v : JVal) (pre : String) : Except String Bool :=
  match v with
  | .str s => .ok (listPre pre.toList s.toList)
  | _ => .error (attrErrMsg (pyTypeName v) "startswith")

/-- Python `str()` rendering used by f-string interpolation of error
messages (`repr` for container elements). -/
def pyRepr : JVal → String
  | .null => "None"
  | .bool true => "True"
  | .bool false => "False"
  | .num n => toString n
  | .str s => pyQ ++ s ++ pyQ
  | .arr xs =>
      "[" ++ String.intercalate ", " (xs.attach.map (fun x => pyRepr x.1)) ++ "]"
  | .obj fs =>
      "\x7b" ++ String.intercalate ", "
        (fs.attach.map (fun kv => pyQ ++ kv.1.1 ++ pyQ ++ ": " ++ pyRepr kv.1.2))
        ++ "\x7d"
  termination_by v => sizeOf v
  decreasing_by
    · have := List.sizeOf_lt_of_mem x.2
      simp only [JVal.arr.sizeOf_spec]
      omega
    · have h1 := List.sizeOf_lt_of_mem kv.2
      have h2 : sizeOf kv.1.2 < sizeOf kv.1 := by
        obtain ⟨a, b⟩ := kv.1
        simp only [Prod.mk.sizeOf_spec]
        omega
      simp only [JVal.obj.sizeOf_spec]
      omega

/-- Python `str(v)` at top level: a bare string prints without quotes. -/
def pyStr : JVal → String
  | .str s => s
  | v => pyRepr v

/-- JSON-RPC error envelope as built throughout `server.py`:
`{"jsonrpc": "2.0", "id": rid, "error": {"code": c, "message": m}}`. -/
def errEnvelope (rid : JVal) (code : Int) (msg : String) : JVal :=
  .obj [("jsonrpc", .str "2.0"), ("id", rid),
        ("error", .obj [("code", .num code), ("message", .str msg)])]

/-- JSON-RPC success envelope `{"jsonrpc": "2.0", "id": rid, "result": r}`. -/
def okEnvelope (rid : JVal) (result : JVal) : JVal :=
  .obj [("jsonrpc", .str "2.0"), ("id", rid), ("result", result)]

/-- The `id` field of a response envelope. -/
def respId (v : JVal) : JVal :=
  match v with
  | .obj fs => pyObjGet fs "id" .null
  | _ => .null

/-- The `error.code` of a response envelope, when present. -/
def errCodeOf (v : JVal) : Option Int :=
  match v with
  | .obj fs =>
      match alookup fs "error" with
      | some (.obj efs) =>
          match alookup efs "code" with
          | some (.num n) => some n
          | _ => none
      | _ => none
  | _ => none

/-- The `error.message` of a response envelope, when present. -/
def errMsgOf (v : JVal) : Option String :=
  match v with
  | .obj fs =>
      match alookup fs "error" with
      | some (.obj efs) =>
          match alookup efs "message" with
          | some (.str s) => some s
          | _ => none
      | _ => none
  | _ => none

/-- A registered tool (`wrapper` with its `_tool_info` in `server.py`):
metadata plus the executable unit, which takes the call arguments and
returns a value or raises. -/
structure ToolEntry : Type where
  name : String
  description : String
  requireLogin : Bool
  fn : JVal → Except String JVal

/-- Server-side mutable state of `MCPStreamableHTTPServer`: the session
registry `self.sessions` and the tool registry `self.tools`. -/
structure ServerState : Type where
  srvName : String
  sessions : List (String × JVal)
  tools : List (String × ToolEntry)

/-- The fixed capability advertisement in `_handle_initialize`. -/
def initializeCapabilities : JVal :=
  .obj [("experimental", .obj []),
        ("prompts", .obj [("listChanged", .bool false)]),
        ("resources", .obj [("subscribe", .bool false), ("listChanged", .bool false)]),
        ("tools", .obj [("listChanged", .bool false)])]

/-- Embeds `_handle_initialize`: allocates a session under the freshly generated
identifier `freshId` (the `uuid4` value, an environment input), records the
requested version/capabilities, and returns the advertisement envelope plus
the identifier destined for the `Mcp-Session-Id` header.  Raises when
`params` is not a dict.  (The wall-clock `created_at` timestamp stored in
the session record is not modeled; no claim depends on it.) -/
def handle_initialize_method (st : ServerState) (params requestId : JVal)
    (freshId : String) : Except String (JVal × ServerState × String) := do
  let pv ← pyGetD params "protocolVersion" (.str "2024-11-05")
  let ci ← pyGetD params "clientInfo" (.obj [])
  let caps ← pyGetD params "capabilities" (.obj [])
  .ok (okEnvelope requestId (.obj
        [("protocolVersion", .str "2024-11-05"),
         ("capabilities", initializeCapabilities),
         ("serverInfo", .obj [("name", .str st.srvName), ("version", .str "1.0.0")])]),
      { st with sessions := st.sessions ++
          [(freshId, JVal.obj [("protocol_version", pv), ("client_info", ci),
                               ("capabilities", caps)])] },
      freshId)

/-- Discovery record for one registered tool, as built in
`_handle_tools_list`. -/
def toolDiscovery (e : ToolEntry) : JVal :=
  .obj [("name", .str e.name), ("description", .str e.description),
        ("inputSchema", .obj [("type", .str "object"),
                              ("properties", .obj []),
                              ("required", .arr [])])]

/-- The guard `if session_id and session_id not in self.sessions` of
`_handle_tools_list`: true exactly when the `mcp-session-id` header is
supplied with a truthy (non-empty) value that is not a registry key. -/
def invalidSessionSupplied (st : ServerState)
    (headers : List (String × String)) : Bool :=
  match alookup headers "mcp-session-id" with
  | some sid => !(sid == "") && (alookup st.sessions sid).isNone
  | none => false

/-- Embeds `_handle_tools_list`: when a non-empty `mcp-session-id` header value is
supplied and absent from the registry, answers the invalid-session error;
otherwise lists every registered tool. -/
def handle_tools_list (st : ServerState) (requestId : JVal)
    (headers : List (String × String)) : JVal :=
  if invalidSessionSupplied st headers then
    errEnvelope requestId (-32600) "Bad Request: Invalid session ID"
  else okEnvelope requestId
    (.obj [("tools", .arr (st.tools.map (fun kv => toolDiscovery kv.2)))])

/-- Embeds `tool_name not in self.tools`: a Python dict membership test.
Only a string can be a key of the registry; `None`, booleans and numbers
are hashable but never keys, while a list or dict name is unhashable, so
the membership test itself raises `TypeError` (which propagates to the
dispatcher's catch-all handler). -/
def toolMember (st : ServerState) (toolName : JVal) :
    Except String (Option ToolEntry) :=
  match toolName with
  | .str nm => .ok (alookup st.tools nm)
  | .arr _ => .error ("unhashable type: " ++ pyQ ++ "list" ++ pyQ)
  | .obj _ => .error ("unhashable type: " ++ pyQ ++ "dict" ++ pyQ)
  | _ => .ok none

/-- Embeds `_handle_tools_call`: reads `params.get("name")` and
`params.get("arguments", {})` (raising when `params` is not a dict — this
propagates to the dispatcher);  an unregistered (or unhashable-but-absent
scalar) name yields the tool-not-found error, and an unhashable name makes
the membership test raise.  For a registered tool, the source reads the
session header, builds the context, assigns `tool_func` — and then
evaluates `isinstance(result, str)` with the local `result` never assigned
(the invocation statement is commented out while the later
`result = json.dumps(...)` keeps `result` a local), so an
`UnboundLocalError` is raised and caught by the handler's own `except`,
which reports it as a tool-execution failure.  The tool's `fn` is
therefore never applied. -/
def handle_tools_call (st : ServerState) (params requestId : JVal)
    (headers : List (String × String)) : Except String JVal := do
  let toolName ← pyGetD params "name" .null
  let _arguments ← pyGetD params "arguments" (.obj [])
  match ← toolMember st toolName with
  | none =>
      .ok (errEnvelope requestId (-32602) ("Tool not found: " ++ pyStr toolName))
  | some _toolFunc =>
      -- (the source reads the `mcp-session-id` header here to build the
      -- context, a no-op for the produced response; `headers` is otherwise
      -- unused, matching the absence of any session validation)
      .ok (errEnvelope requestId (-32603)
        ("Tool execution failed: " ++ unboundLocalResultMsg))

/-- Outcome of `_process_jsonrpc_request`: the optional response body, the
updated server state, and the session id that `initialize` stashes on the
request object for the `Mcp-Session-Id` response header. -/
structure DispatchResult : Type where
  response : Option JVal
  state : ServerState
  newSessionId : Option String

/-- The dispatcher's outer `try/except`: a raised exception is swallowed for
a notification and converted to an internal-error envelope for a request. -/
def dispatchCatch (st : ServerState) (requestId : JVal) (isNotif : Bool)
    (r : Except String DispatchResult) : DispatchResult :=
  match r with
  | .ok d => d
  | .error e =>
      if isNotif then ⟨none, st, none⟩
      else ⟨some (errEnvelope requestId (-32603) ("Internal error: " ++ e)), st, none⟩

/-- The method-routing chain inside the dispatcher's `try`. -/
def dispatchRoute (st : ServerState) (freshId : String)
    (headers : List (String × String)) (method params requestId : JVal)
    (isNotif : Bool) : Except String DispatchResult :=
  if method.isStrEq "initialize" then
    if isNotif then .ok ⟨none, st, none⟩
    else do
      let (resp, st', sid) ← handle_initialize_method st params requestId freshId
      .ok ⟨some resp, st', some sid⟩
  else if method.isStrEq "tools/list" then
    if isNotif then .ok ⟨none, st, none⟩
    else .ok ⟨some (handle_tools_list st requestId headers), st, none⟩
  else if method.isStrEq "tools/call" then
    if isNotif then .ok ⟨none, st, none⟩
    else do
      let resp ← handle_tools_call st params requestId headers
      .ok ⟨some resp, st, none⟩
  else if method.isStrEq "notifications/initialized" then .ok ⟨none, st, none⟩
  else do
    let sw ← pyStartsWith method "notifications/"
    if sw then .ok ⟨none, st, none⟩
    else if isNotif then .ok ⟨none, st, none⟩
    else .ok ⟨some (errEnvelope requestId (-32601)
      ("Method not found: " ++ pyStr method)), st, none⟩

/-- Embeds `_process_jsonrpc_request` on a parsed JSON object envelope `data`:
extracts `method`, `params` (default `{}`) and `id` (absent or JSON null
both give Python `None`), classifies request vs notification by the id, and
routes, converting raised exceptions per the notification contract. -/
def process_jsonrpc_request (st : ServerState) (freshId : String)
    (headers : List (String × String)) (data : List (String × JVal)) :
    DispatchResult :=
  dispatchCatch st (pyObjGet data "id" JVal.null)
    (pyObjGet data "id" JVal.null).isNull
    (dispatchRoute st freshId headers (pyObjGet data "method" JVal.null)
      (pyObjGet data "params" (JVal.obj [])) (pyObjGet data "id" JVal.null)
      (pyObjGet data "id" JVal.null).isNull)

/-- Chosen response transport in `_handle_mcp_request`: plain JSON body or
an SSE stream of one `message` event and one `done` event. -/
inductive RespFormat : Type where
  | json : RespFormat
  | sse : RespFormat

/-- The HTTP response produced for a `POST /mcp` call. -/
structure HttpResponse : Type where
  status : Nat
  body : JVal
  format : RespFormat
  mcpSessionId : Option String

/-- Embeds `_handle_mcp_request` (POST `/mcp`).  `accept` is the raw `Accept`
header (FastAPI defaults a missing header to `""`); `bodyParse` is the
outcome of reading and `json.loads`-parsing the body (`.error` covers an
empty body and malformed JSON).  The gate rejects with 406 whenever the
header contains neither media-type string as a substring (Python `in`);
a parse failure gives 400; a notification gives 202 with an empty object;
otherwise the dispatcher's response is returned with 200, as JSON when the
header contains `application/json` and as an SSE stream otherwise.  A
non-object body reaches `data.get("method")` before the dispatcher's `try`,
so the `AttributeError` propagates to the route's outer handler and yields
500. -/
def handle_mcp_request (st : ServerState) (freshId : String) (accept : String)
    (headers : List (String × String)) (bodyParse : Except String JVal) :
    HttpResponse × ServerState :=
  if !(containsSub accept "application/json")
      && !(containsSub accept "text/event-stream") then
    (⟨406, errEnvelope (.str "server-error") (-32600)
        "Not Acceptable: Client must accept both application/json and text/event-stream",
      .json, none⟩, st)
  else
    match bodyParse with
    | .error e =>
        (⟨400, errEnvelope (.str "server-error") (-32700) ("Parse error: " ++ e),
          .json, none⟩, st)
    | .ok (.obj fields) =>
        match process_jsonrpc_request st freshId headers fields with
        | ⟨none, st', _⟩ => (⟨202, .obj [], .json, none⟩, st')
        | ⟨some resp, st', sid⟩ =>
            if containsSub accept "application/json" then
              (⟨200, resp, .json, sid⟩, st')
            else
              (⟨200, resp, .sse, sid⟩, st')
    | .ok v =>
        (⟨500, errEnvelope (.str "server-error") (-32603)
            ("Internal error: " ++ attrErrMsg (pyTypeName v) "get"),
          .json, none⟩, st)

/-! ## Session manager (`jaccount_login.py`) -/

/-- A cookie set: names mapped to values (the flat dict `self.cookies`
holds, and the JSON object the credential file holds). -/
abbrev Cookies := List (String × String)

/-- In-memory state of a `JAccountLogin` object: the `self.cookies` record
(`None` until populated) and the name-to-value view of the `requests`
session's cookie jar. -/
structure JA : Type where
  cookies : Option Cookies
  jar : Cookies

/-- The credential file: `none` when absent, otherwise the cookie dict its
JSON text encodes. -/
abbrev FsFile := Option Cookies

/-- Embeds `jar.set(k, v)` (`requests` cookie jar `set`): replaces an existing
cookie of that name, else appends. -/
def jarSet (j : Cookies) (k v : String) : Cookies :=
  match j with
  | [] => [(k, v)]
  | (k', v') :: rest => if k' = k then (k, v) :: rest else (k', v') :: jarSet rest k v

/-- The dict `_save_cookies`/`login_with_password` build from the jar:
`for cookie in session.cookies: d[cookie.name] = cookie.value` (later
bindings overwrite earlier ones). -/
def dictOfJar (jar : Cookies) : Cookies :=
  jar.foldl (fun d kv => jarSet d kv.1 kv.2) []

/-- Embeds `_save_cookies`: writes `self.cookies` to the file only when the record
is truthy (`if self.cookies:` — `None` and the empty dict are both falsy);
otherwise the file is left as it was. -/
def save_cookies (ja : JA) (fs : FsFile) : FsFile :=
  match ja.cookies with
  | some cs => if cs.isEmpty then fs else some cs
  | none => fs

/-- Construction of a fresh `JAccountLogin` from a credential file
(`__init__` + `_load_cookies`): a fresh `requests.Session` has an empty
jar; when the file exists, its dict becomes `self.cookies` and each pair is
`set` into the jar. -/
def initJA (fs : FsFile) : JA :=
  match fs with
  | none => { cookies := none, jar := [] }
  | some cs =>
      { cookies := some cs,
        jar := cs.foldl (fun j kv => jarSet j kv.1 kv.2) [] }

/-- Embeds `logout`: everything — the remote GET, the local clearing, and the file
unlink — sits in a single `try`; any raised step lands in the `except`,
which returns `False` without executing the remaining statements.  `remote`
and `unlink` are the outcomes of the two fallible external steps. -/
def logout (ja : JA) (fs : FsFile) (remote unlink : Except String Unit) :
    Bool × JA × FsFile :=
  match remote with
  | .error _ => (false, ja, fs)
  | .ok _ =>
      let ja' : JA := { cookies := none, jar := [] }
      match fs with
      | none => (true, ja', none)
      | some c =>
          match unlink with
          | .error _ => (false, ja', some c)
          | .ok _ => (true, ja', none)

/-- Environment of one `login_with_password` attempt: outcomes of the
fallible outbound steps, and the content the remote side leaves in the
`requests` cookie jar by the time the call returns (the jar is mutated by
the HTTP fetches themselves, which are external effects). -/
structure LoginEnv : Type where
  getParams : Except String (Cookies × String × String)
  captchaFetch : Except String Unit
  captchaText : Except String String
  submit : Except String String
  jarAfter : Cookies

/-- Embeds `login_with_password`: steps through `_get_login_params`, the CAPTCHA
fetch, the interactive CAPTCHA input, and the form submission; any raised
step is caught by the outer `except` and yields `False`.  Success requires
the submission's final URL not to contain the login-page URL; only then is
`self.cookies` re-assigned (a name-to-value snapshot of the jar) and
`_save_cookies` run.  On every failure path `self.cookies` and the file are
left untouched. -/
def login_with_password (ja : JA) (fs : FsFile) (env : LoginEnv) :
    Bool × JA × FsFile :=
  match env.getParams with
  | .error _ => (false, { ja with jar := env.jarAfter }, fs)
  | .ok _ =>
    match env.captchaFetch with
    | .error _ => (false, { ja with jar := env.jarAfter }, fs)
    | .ok _ =>
      match env.captchaText with
      | .error _ => (false, { ja with jar := env.jarAfter }, fs)
      | .ok _ =>
        match env.submit with
        | .error _ => (false, { ja with jar := env.jarAfter }, fs)
        | .ok finalUrl =>
          if containsSub finalUrl "jaccount.sjtu.edu.cn/jaccount/jalogin" then
            (false, { ja with jar := env.jarAfter }, fs)
          else
            let ja' : JA := { cookies := some (dictOfJar env.jarAfter),
                              jar := env.jarAfter }
            (true, ja', save_cookies ja' fs)

/-- JSON text `json.dump` writes for a cookie dict (default separators),
as a character list: `{"name": "value", ...}`. -/
def serializeCookies (cs : Cookies) : List Char :=
  (("\x7b" ++ String.intercalate ", "
      (cs.map (fun kv => "\"" ++ kv.1 ++ "\": \"" ++ kv.2 ++ "\""))
    ++ "\x7d")).toList

/-- Observable credential-file content while `_save_cookies` runs:
`open(path, "w")` truncates in place, then `json.dump` emits the new text
front to back.  `step = 0` is the state before the open; `step = 1` is
right after the truncation; `step = n + 1` is after `n` characters of the
new text have been written. -/
def fileDuringWrite (old new : List Char) (step : Nat) : List Char :=
  if step = 0 then old else new.take (step - 1)

/-! ## Concrete sample data used by witnesses -/

/-- A sample tool: would answer the string "hello" if invoked. -/
def echoTool : ToolEntry :=
  ⟨"echo", "echoes a greeting", true, fun _ => .ok (.str "hello")⟩

/-- A server state with one registered session and one registered tool. -/
def stDemo : ServerState :=
  ⟨"SJTU-Chatbot MCP Server", [("sess-1", .obj [])], [("echo", echoTool)]⟩

/-! ## Helper lemmas -/

theorem respId_errEnvelope (rid : JVal) (c : Int) (m : String) :
    respId (errEnvelope rid c m) = rid := by
  simp [respId, errEnvelope, pyObjGet, alookup]

theorem respId_okEnvelope (rid r : JVal) :
    respId (okEnvelope rid r) = rid := by
  simp [respId, okEnvelope, pyObjGet, alookup]

theorem dispatchCatch_ok (st : ServerState) (rid : JVal) (n : Bool)
    (d : DispatchResult) : dispatchCatch st rid n (.ok d) = d := rfl

theorem dispatchCatch_err_notif (st : ServerState) (rid : JVal) (e : String) :
    dispatchCatch st rid true (.error e) = ⟨none, st, none⟩ := rfl

theorem dispatchCatch_err_req (st : ServerState) (rid : JVal) (e : String) :
    dispatchCatch st rid false (.error e) =
      ⟨some (errEnvelope rid (-32603) ("Internal error: " ++ e)), st, none⟩ := rfl

theorem handle_init_method_id (st : ServerState) (params requestId : JVal)
    (freshId : String) (r : JVal) (st' : ServerState) (sid : String)
    (h : handle_initialize_method st params requestId freshId = .ok (r, st', sid)) :
    respId r = requestId := by
  cases params
  case obj fs =>
    simp only [handle_initialize_method, pyGetD, bind, Except.bind, Except.ok.injEq,
      Prod.mk.injEq] at h
    obtain ⟨h1, -, -⟩ := h
    rw [← h1]
    exact respId_okEnvelope _ _
  all_goals exact absurd h (by simp [handle_initialize_method, pyGetD, bind, Except.bind])

theorem handle_tools_list_id (st : ServerState) (requestId : JVal)
    (headers : List (String × String)) :
    respId (handle_tools_list st requestId headers) = requestId := by
  unfold handle_tools_list
  split
  · exact respId_errEnvelope _ _ _
  · exact respId_okEnvelope _ _

theorem handle_tools_call_id (st : ServerState) (params requestId : JVal)
    (headers : List (String × String)) (r : JVal)
    (h : handle_tools_call st params requestId headers = .ok r) :
    respId r = requestId := by
  cases params
  case obj fs =>
    simp only [handle_tools_call, pyGetD, bind, Except.bind] at h
    cases htm : toolMember st (pyObjGet fs "name" JVal.null) with
    | error e =>
        rw [htm] at h
        simp at h
    | ok o =>
        rw [htm] at h
        cases o with
        | none =>
            simp at h
            subst h
            exact respId_errEnvelope _ _ _
        | some entry =>
            simp at h
            subst h
            exact respId_errEnvelope _ _ _
  all_goals exact absurd h (by simp [handle_tools_call, pyGetD, bind, Except.bind])

/-- When the method is not a string (including Python `None` for an absent
method field), every `==` comparison is false and `method.startswith`
raises the `AttributeError`. -/
theorem dispatchRoute_nonstr_method (st : ServerState) (freshId : String)
    (headers : List (String × String)) (m p rid : JVal) (n : Bool)
    (hm : ∀ s : String, m ≠ JVal.str s) :
    dispatchRoute st freshId headers m p rid n =
      .error (attrErrMsg (pyTypeName m) "startswith") := by
  have hstr : ∀ t : String, m.isStrEq t = false := fun t => by
    cases m <;> first | rfl | exact absurd rfl (hm _)
  have hsw : pyStartsWith m "notifications/" =
      .error (attrErrMsg (pyTypeName m) "startswith") := by
    cases m <;> first | rfl | exact absurd rfl (hm _)
  unfold dispatchRoute
  simp [hstr, hsw, bind, Except.bind]

/-- With notification framing, every branch of the routing chain yields
either no response or a raised exception. -/
theorem dispatchRoute_notif (st : ServerState) (freshId : String)
    (headers : List (String × String)) (m p rid : JVal) :
    dispatchRoute st freshId headers m p rid true = .ok ⟨none, st, none⟩ ∨
    ∃ e, dispatchRoute st freshId headers m p rid true = .error e := by
  unfold dispatchRoute
  by_cases h1 : m.isStrEq "initialize" = true
  · simp [h1]
  by_cases h2 : m.isStrEq "tools/list" = true
  · simp [h1, h2]
  by_cases h3 : m.isStrEq "tools/call" = true
  · simp [h1, h2, h3]
  by_cases h4 : m.isStrEq "notifications/initialized" = true
  · simp [h1, h2, h3, h4]
  cases hsw : pyStartsWith m "notifications/" with
  | error e =>
      right
      exact ⟨e, by simp [h1, h2, h3, h4, hsw, bind, Except.bind]⟩
  | ok b =>
      left
      cases b <;> simp [h1, h2, h3, h4, hsw, bind, Except.bind]

/-! ## C4 — notifications (no id) never get a response -/

/-- C4: for every parsed JSON object envelope with no id field (or a JSON
null id, which Python's `data.get("id")` renders identically as `None`),
the dispatcher produces no response, whatever the method — including the
request-class methods, notification-class methods, unknown methods, and
methods whose classification raises. -/
theorem c4_notification_no_response (st : ServerState) (freshId : String)
    (headers : List (String × String)) (data : List (String × JVal))
    (h : pyObjGet data "id" JVal.null = JVal.null) :
    (process_jsonrpc_request st freshId headers data).response = none := by
  unfold process_jsonrpc_request
  rw [h]
  rcases dispatchRoute_notif st freshId headers
      (pyObjGet data "method" JVal.null) (pyObjGet data "params" (JVal.obj []))
      JVal.null with hr | ⟨e, hr⟩
  · rw [show JVal.null.isNull = true from rfl, hr, dispatchCatch_ok]
  · rw [show JVal.null.isNull = true from rfl, hr, dispatchCatch_err_notif]

/-- C4 witness: a concrete `tools/list` envelope without an id gets no
response. -/
theorem c4_witness :
    pyObjGet [("method", JVal.str "tools/list")] "id" JVal.null = JVal.null ∧
    (process_jsonrpc_request stDemo "fresh" []
        [("method", JVal.str "tools/list")]).response = none := by
  refine ⟨rfl, ?_⟩
  exact c4_notification_no_response stDemo "fresh" []
    [("method", JVal.str "tools/list")] rfl

/-! ## C10 — requests with a missing or non-string method -/

/-- C10: an envelope carrying a (non-null) id whose method field is absent
or not a string gets an internal-error response (code -32603) with that id:
none of the `==` comparisons match, and `method.startswith` raises an
`AttributeError` absorbed by the dispatcher's catch-all handler. -/
theorem c10_bad_method_internal_error (st : ServerState) (freshId : String)
    (headers : List (String × String)) (data : List (String × JVal))
    (hid : pyObjGet data "id" JVal.null ≠ JVal.null)
    (hm : ∀ s : String, pyObjGet data "method" JVal.null ≠ JVal.str s) :
    (process_jsonrpc_request st freshId headers data).response =
      some (errEnvelope (pyObjGet data "id" JVal.null) (-32603)
        ("Internal error: " ++
          attrErrMsg (pyTypeName (pyObjGet data "method" JVal.null)) "startswith")) := by
  unfold process_jsonrpc_request
  have hnotif : (pyObjGet data "id" JVal.null).isNull = false := by
    cases hc : pyObjGet data "id" JVal.null <;>
      first | exact absurd hc hid | rfl
  rw [hnotif, dispatchRoute_nonstr_method st freshId headers _ _ _ _ hm,
    dispatchCatch_err_req]

/-- C10 witness: a concrete envelope with id 7 and a numeric method gets the
-32603 internal-error response carrying id 7. -/
theorem c10_witness :
    pyObjGet [("id", JVal.num 7), ("method", JVal.num 5)] "id" JVal.null ≠ JVal.null ∧
    (process_jsonrpc_request stDemo "fresh" []
        [("id", JVal.num 7), ("method", JVal.num 5)]).response =
      some (errEnvelope (JVal.num 7) (-32603)
        ("Internal error: " ++ attrErrMsg "int" "startswith")) := by
  refine ⟨by simp [pyObjGet, alookup], ?_⟩
  exact c10_bad_method_internal_error stDemo "fresh" []
    [("id", JVal.num 7), ("method", JVal.num 5)]
    (by simp [pyObjGet, alookup]) (by simp [pyObjGet, alookup])

theorem isStrEq_eq {m : JVal} {t : String} (h : m.isStrEq t = true) :
    m = JVal.str t := by
  cases m <;>
    first
    | (simp only [JVal.isStrEq, beq_iff_eq] at h; rw [h])
    | simp [JVal.isStrEq] at h

theorem dispatchRoute_tools_list (st : ServerState) (freshId : String)
    (headers : List (String × String)) (p rid : JVal) :
    dispatchRoute st freshId headers (JVal.str "tools/list") p rid false =
      .ok ⟨some (handle_tools_list st rid headers), st, none⟩ := by
  unfold dispatchRoute
  rfl

theorem dispatchRoute_tools_call (st : ServerState) (freshId : String)
    (headers : List (String × String)) (p rid : JVal) :
    dispatchRoute st freshId headers (JVal.str "tools/call") p rid false =
      (handle_tools_call st p rid headers).bind
        (fun resp => .ok ⟨some resp, st, none⟩) := by
  unfold dispatchRoute
  cases handle_tools_call st p rid headers <;> rfl

theorem dispatchRoute_init_method (st : ServerState) (freshId : String)
    (headers : List (String × String)) (p rid : JVal) :
    dispatchRoute st freshId headers (JVal.str "initialize") p rid false =
      (handle_initialize_method st p rid freshId).bind
        (fun x => .ok ⟨some x.1, x.2.1, some x.2.2⟩) := by
  unfold dispatchRoute
  cases h : handle_initialize_method st p rid freshId with
  | ok x => cases x with | mk a y => cases y <;> rfl
  | error e => rfl

/-! ## C5 — requests with an id: one response, echoing the id -/

/-- C5 counterexample: a well-formed request envelope with id 1 whose method
is `notifications/initialized` gets no response at all, contradicting the
claim that every request envelope with an id gets exactly one response
whatever the method name. -/
theorem c5_counterexample :
    (process_jsonrpc_request stDemo "fresh" []
        [("id", JVal.num 1),
         ("method", JVal.str "notifications/initialized")]).response = none := by
  rfl

/-- C5 (amended): for every envelope carrying a non-null id whose method is
not a notification-class name (a string on which `startswith
"notifications/"` holds — this includes `notifications/initialized`), the
dispatcher produces exactly one response envelope, and it carries the
request's id. -/
theorem c5_request_one_response_same_id (st : ServerState) (freshId : String)
    (headers : List (String × String)) (data : List (String × JVal))
    (hid : pyObjGet data "id" JVal.null ≠ JVal.null)
    (hm : ∀ s : String, pyObjGet data "method" JVal.null = JVal.str s →
      pyStartsWith (JVal.str s) "notifications/" = .ok false) :
    ∃ r, (process_jsonrpc_request st freshId headers data).response = some r ∧
      respId r = pyObjGet data "id" JVal.null := by
  unfold process_jsonrpc_request
  have hnotif : (pyObjGet data "id" JVal.null).isNull = false := by
    cases hc : pyObjGet data "id" JVal.null <;> first | exact absurd hc hid | rfl
  rw [hnotif]
  generalize hmq : pyObjGet data "method" JVal.null = m
  rw [hmq] at hm
  generalize hrq : pyObjGet data "id" JVal.null = rid
  generalize hpq : pyObjGet data "params" (JVal.obj []) = p
  by_cases hstr : ∃ s : String, m = JVal.str s
  · obtain ⟨s, rfl⟩ := hstr
    by_cases h1 : s = "initialize"
    · subst h1
      rw [dispatchRoute_init_method]
      cases hi : handle_initialize_method st p rid freshId with
      | ok x =>
          obtain ⟨r, st', sid⟩ := x
          exact ⟨r, rfl, handle_init_method_id st p rid freshId r st' sid hi⟩
      | error e =>
          exact ⟨errEnvelope rid (-32603) ("Internal error: " ++ e), rfl,
            respId_errEnvelope _ _ _⟩
    by_cases h2 : s = "tools/list"
    · subst h2
      rw [dispatchRoute_tools_list, dispatchCatch_ok]
      exact ⟨handle_tools_list st rid headers, rfl, handle_tools_list_id st rid headers⟩
    by_cases h3 : s = "tools/call"
    · subst h3
      rw [dispatchRoute_tools_call]
      cases hc : handle_tools_call st p rid headers with
      | ok r =>
          exact ⟨r, rfl, handle_tools_call_id st p rid headers r hc⟩
      | error e =>
          exact ⟨errEnvelope rid (-32603) ("Internal error: " ++ e), rfl,
            respId_errEnvelope _ _ _⟩
    by_cases h4 : s = "notifications/initialized"
    · subst h4
      have hcon := hm _ rfl
      simp only [pyStartsWith, Except.ok.injEq] at hcon
      exact absurd hcon (by decide)
    · have hsw := hm s rfl
      refine ⟨errEnvelope rid (-32601) ("Method not found: " ++ pyStr (JVal.str s)),
        ?_, respId_errEnvelope _ _ _⟩
      unfold dispatchRoute
      simp [JVal.isStrEq, h1, h2, h3, h4, hsw, bind, Except.bind, dispatchCatch]
  · push_neg at hstr
    rw [dispatchRoute_nonstr_method st freshId headers m p rid false hstr,
      dispatchCatch_err_req]
    exact ⟨errEnvelope rid (-32603)
      ("Internal error: " ++ attrErrMsg (pyTypeName m) "startswith"),
      rfl, respId_errEnvelope _ _ _⟩

/-- C5 witness: a concrete `tools/list` request with id 3 gets exactly one
response carrying id 3. -/
theorem c5_witness :
    pyObjGet [("id", JVal.num 3), ("method", JVal.str "tools/list")] "id"
        JVal.null ≠ JVal.null ∧
    ∃ r, (process_jsonrpc_request stDemo "fresh" []
        [("id", JVal.num 3), ("method", JVal.str "tools/list")]).response = some r ∧
      respId r = pyObjGet [("id", JVal.num 3), ("method", JVal.str "tools/list")]
        "id" JVal.null := by
  refine ⟨by simp [pyObjGet, alookup], ?_⟩
  exact c5_request_one_response_same_id stDemo "fresh" []
    [("id", JVal.num 3), ("method", JVal.str "tools/list")]
    (by simp [pyObjGet, alookup])
    (fun s h => by
      simp only [pyObjGet, alookup] at h
      split at h <;> simp_all
      subst h
      rfl)

/-! ## C2 — session validation of tools/list vs tools/call -/

/-- C2 counterexample: with session registry `{"sess-1"}` and tool registry
`{"echo"}`, a `tools/call` request supplying the unknown header
`mcp-session-id: ghost` is NOT answered with the invalid-session error —
the handler performs no session validation and proceeds (into the broken
invocation path), answering a tool-execution-failure instead. -/
theorem c2_counterexample :
    (process_jsonrpc_request stDemo "fresh" [("mcp-session-id", "ghost")]
        [("id", JVal.num 1), ("method", JVal.str "tools/call"),
         ("params", JVal.obj [("name", JVal.str "echo")])]).response =
      some (errEnvelope (JVal.num 1) (-32603)
        ("Tool execution failed: " ++ unboundLocalResultMsg)) ∧
    (process_jsonrpc_request stDemo "fresh" [("mcp-session-id", "ghost")]
        [("id", JVal.num 1), ("method", JVal.str "tools/call"),
         ("params", JVal.obj [("name", JVal.str "echo")])]).response ≠
      some (errEnvelope (JVal.num 1) (-32600) "Bad Request: Invalid session ID") := by
  have hA : (process_jsonrpc_request stDemo "fresh" [("mcp-session-id", "ghost")]
      [("id", JVal.num 1), ("method", JVal.str "tools/call"),
       ("params", JVal.obj [("name", JVal.str "echo")])]).response =
      some (errEnvelope (JVal.num 1) (-32603)
        ("Tool execution failed: " ++ unboundLocalResultMsg)) := by rfl
  refine ⟨hA, fun h => ?_⟩
  have h2 := Option.some.inj (hA.symm.trans h)
  have h3 := congrArg errMsgOf h2
  simp only [errMsgOf, errEnvelope, alookup] at h3
  exact absurd h3 (by decide)

/-- C2 (amended): only `tools/list` validates the `mcp-session-id` header —
a supplied non-empty value absent from the session registry yields the
invalid-session error there; `tools/call` performs no session validation at
all: its response is the same whatever the request headers. -/
theorem c2_session_validation :
    (∀ (st : ServerState) (freshId : String) (headers : List (String × String))
        (data : List (String × JVal)) (sid : String),
      alookup headers "mcp-session-id" = some sid → sid ≠ "" →
      alookup st.sessions sid = none →
      pyObjGet data "id" JVal.null ≠ JVal.null →
      pyObjGet data "method" JVal.null = JVal.str "tools/list" →
      (process_jsonrpc_request st freshId headers data).response =
        some (errEnvelope (pyObjGet data "id" JVal.null) (-32600)
          "Bad Request: Invalid session ID")) ∧
    (∀ (st : ServerState) (freshId : String)
        (headers headers' : List (String × String)) (data : List (String × JVal)),
      pyObjGet data "method" JVal.null = JVal.str "tools/call" →
      (process_jsonrpc_request st freshId headers data).response =
        (process_jsonrpc_request st freshId headers' data).response) := by
  constructor
  · intro st freshId headers data sid hh hne hab hid hmeth
    unfold process_jsonrpc_request
    have hnotif : (pyObjGet data "id" JVal.null).isNull = false := by
      cases hc : pyObjGet data "id" JVal.null <;> first | exact absurd hc hid | rfl
    rw [hnotif, hmeth, dispatchRoute_tools_list, dispatchCatch_ok]
    have hbad : invalidSessionSupplied st headers = true := by
      simp [invalidSessionSupplied, hh, hne, hab]
    simp [handle_tools_list, hbad]
  · intro st freshId headers headers' data hmeth
    unfold process_jsonrpc_request
    rw [hmeth]
    cases hn : (pyObjGet data "id" JVal.null).isNull
    · rw [dispatchRoute_tools_call, dispatchRoute_tools_call]
      have hsame : handle_tools_call st (pyObjGet data "params" (JVal.obj []))
          (pyObjGet data "id" JVal.null) headers =
          handle_tools_call st (pyObjGet data "params" (JVal.obj []))
            (pyObjGet data "id" JVal.null) headers' := rfl
      rw [hsame]
    · have hroute : ∀ hs : List (String × String),
          dispatchRoute st freshId hs (JVal.str "tools/call")
            (pyObjGet data "params" (JVal.obj []))
            (pyObjGet data "id" JVal.null) true = .ok ⟨none, st, none⟩ := by
        intro hs
        unfold dispatchRoute
        rfl
      rw [hroute, hroute]

/-- C2 witness: applying the amended theorem at a concrete `tools/list`
request carrying the unknown header value "ghost". -/
theorem c2_witness :
    alookup [("mcp-session-id", "ghost")] "mcp-session-id" = some "ghost" ∧
    alookup stDemo.sessions "ghost" = none ∧
    (process_jsonrpc_request stDemo "fresh" [("mcp-session-id", "ghost")]
        [("id", JVal.num 2), ("method", JVal.str "tools/list")]).response =
      some (errEnvelope (JVal.num 2) (-32600) "Bad Request: Invalid session ID") := by
  refine ⟨rfl, rfl, ?_⟩
  have h := c2_session_validation.1 stDemo "fresh" [("mcp-session-id", "ghost")]
    [("id", JVal.num 2), ("method", JVal.str "tools/list")] "ghost"
    rfl (by decide) rfl (by simp [pyObjGet, alookup]) (by simp [pyObjGet, alookup])
  simpa [pyObjGet, alookup] using h

/-! ## C1 — tools/call on a registered tool never invokes it (code bug) -/

/-- C1 (code bug): for ANY registered tool — whatever its executable `fn`
would return — a `tools/call` request naming it is answered with the
internal error built from the `UnboundLocalError` message of reading the
unassigned local `result` (the invocation statement that would assign it
is commented out in the source, while the later `json.dumps` assignment
keeps `result` a local).  The tool is never invoked and its return value
never serialized, contradicting the specified invoke-and-serialize
behavior. -/
theorem c1_tool_never_invoked (st : ServerState) (freshId : String)
    (headers : List (String × String)) (rid : JVal) (nm : String)
    (entry : ToolEntry)
    (hid : rid ≠ JVal.null)
    (hl : alookup st.tools nm = some entry) :
    (process_jsonrpc_request st freshId headers
        [("id", rid), ("method", JVal.str "tools/call"),
         ("params", JVal.obj [("name", JVal.str nm)])]).response =
      some (errEnvelope rid (-32603)
        ("Tool execution failed: " ++ unboundLocalResultMsg)) := by
  unfold process_jsonrpc_request
  have hnotif : (pyObjGet [("id", rid), ("method", JVal.str "tools/call"),
      ("params", JVal.obj [("name", JVal.str nm)])] "id" JVal.null).isNull = false := by
    show rid.isNull = false
    cases rid <;> first | exact absurd rfl hid | rfl
  rw [hnotif]
  show (dispatchCatch st rid false
    (dispatchRoute st freshId headers (JVal.str "tools/call")
      (JVal.obj [("name", JVal.str nm)]) rid false)).response = _
  rw [dispatchRoute_tools_call]
  have hcall : handle_tools_call st (JVal.obj [("name", JVal.str nm)]) rid headers =
      .ok (errEnvelope rid (-32603)
        ("Tool execution failed: " ++ unboundLocalResultMsg)) := by
    simp [handle_tools_call, pyGetD, pyObjGet, alookup, bind, Except.bind,
      toolMember, hl]
  rw [hcall]
  rfl

/-- C1 witness: the registered "echo" tool, whose `fn` would answer the
string "hello", still yields the unbound-local-`result` internal error. -/
theorem c1_witness :
    alookup stDemo.tools "echo" = some echoTool ∧
    echoTool.fn (JVal.obj []) = .ok (JVal.str "hello") ∧
    (process_jsonrpc_request stDemo "fresh" []
        [("id", JVal.num 1), ("method", JVal.str "tools/call"),
         ("params", JVal.obj [("name", JVal.str "echo")])]).response =
      some (errEnvelope (JVal.num 1) (-32603)
        ("Tool execution failed: " ++ unboundLocalResultMsg)) := by
  refine ⟨rfl, rfl, ?_⟩
  exact c1_tool_never_invoked stDemo "fresh" [] (JVal.num 1) "echo" echoTool
    (by simp) rfl

/-! ## C9 — the Accept gate on POST /mcp -/

/-- C9 counterexample: a POST with the wildcard header `Accept: */*` IS
rejected with 406 — the gate is a substring test, and `*/*` contains
neither "application/json" nor "text/event-stream". -/
theorem c9_counterexample :
    (handle_mcp_request stDemo "fresh" "*/*" [] (.ok (JVal.obj []))).1.status
      = 406 := by
  rfl

/-- C9 (amended): a POST to /mcp is answered 406 exactly when the Accept
header string contains neither "application/json" nor "text/event-stream"
as a substring (Python `in`); a wildcard such as `*/*` therefore IS
rejected. -/
theorem c9_accept_gate (st : ServerState) (freshId accept : String)
    (headers : List (String × String)) (bodyParse : Except String JVal) :
    (handle_mcp_request st freshId accept headers bodyParse).1.status = 406 ↔
      containsSub accept "application/json" = false ∧
      containsSub accept "text/event-stream" = false := by
  unfold handle_mcp_request
  by_cases hg : (!containsSub accept "application/json"
      && !containsSub accept "text/event-stream") = true
  · rw [if_pos hg]
    simp only [Bool.and_eq_true, Bool.not_eq_true'] at hg
    simp [hg.1, hg.2]
  · rw [if_neg hg]
    simp only [Bool.and_eq_true, Bool.not_eq_true'] at hg
    refine iff_of_false ?_ hg
    rcases bodyParse with e | v
    · simp
    cases v with
    | obj fields =>
        dsimp only
        rcases hproc : process_jsonrpc_request st freshId headers fields with
          ⟨resp?, st', sid?⟩
        cases resp?
        · simp
        · dsimp only
          split <;> simp
    | null => simp
    | bool b => simp
    | num n => simp
    | str t => simp
    | arr xs => simp

/-! ## Concrete sample login state -/

/-- A login manager holding one stored cookie. -/
def jaEx : JA := ⟨some [("a", "1")], [("a", "1")]⟩

/-- A credential file holding that cookie. -/
def fsEx : FsFile := some [("a", "1")]

/-! ## C3 — logout and remote failure -/

/-- C3 counterexample: when the remote logout GET raises (here a timeout),
`logout` returns `False` and clears NOTHING — the in-memory record, the
jar, and the credential file all keep their previous content, because the
remote call sits inside the same `try` as the local clearing and its
exception jumps straight to the `except` that returns `False`. -/
theorem c3_counterexample :
    logout jaEx fsEx (.error "timeout") (.ok ()) = (false, jaEx, fsEx) := by
  rfl

/-- C3 (amended): a raised remote logout call makes `logout` return `False`
with all local state untouched; only when the remote call returns without
raising (and the unlink raises nothing) are the cookie record and jar
cleared, the file deleted, and `True` returned. -/
theorem c3_logout_behavior :
    (∀ (ja : JA) (fs : FsFile) (e : String) (u : Except String Unit),
      logout ja fs (.error e) u = (false, ja, fs)) ∧
    (∀ (ja : JA) (fs : FsFile),
      logout ja fs (.ok ()) (.ok ()) = (true, ⟨none, []⟩, none)) := by
  refine ⟨fun ja fs e u => rfl, fun ja fs => ?_⟩
  cases fs <;> rfl

/-! ## C7 — a rejected login leaves stored cookies untouched -/

/-- C7: whenever the login-form submission's final URL still points at the
login page (the source's substring check), `login_with_password` returns
`False` — no exception escapes, as the whole flow is inside `try/except` —
and both the in-memory cookie record and the credential file are exactly
what they were before the call. -/
theorem c7_failed_login_preserves_cookies (ja : JA) (fs : FsFile)
    (env : LoginEnv) (p : Cookies × String × String) (cap finalUrl : String)
    (h1 : env.getParams = .ok p) (h2 : env.captchaFetch = .ok ())
    (h3 : env.captchaText = .ok cap) (h4 : env.submit = .ok finalUrl)
    (h5 : containsSub finalUrl "jaccount.sjtu.edu.cn/jaccount/jalogin" = true) :
    (login_with_password ja fs env).1 = false ∧
    (login_with_password ja fs env).2.1.cookies = ja.cookies ∧
    (login_with_password ja fs env).2.2 = fs := by
  unfold login_with_password
  simp [h1, h2, h3, h4, h5]

/-- C7 witness: a concrete attempt whose submission lands back on the login
page fails and preserves the stored cookie and the file. -/
theorem c7_witness :
    (login_with_password jaEx fsEx
        ⟨.ok ([], "", ""), .ok (), .ok "abcd",
         .ok "https://jaccount.sjtu.edu.cn/jaccount/jalogin?err=1",
         [("JSESSIONID", "tmp")]⟩).1 = false ∧
    (login_with_password jaEx fsEx
        ⟨.ok ([], "", ""), .ok (), .ok "abcd",
         .ok "https://jaccount.sjtu.edu.cn/jaccount/jalogin?err=1",
         [("JSESSIONID", "tmp")]⟩).2.1.cookies = jaEx.cookies ∧
    (login_with_password jaEx fsEx
        ⟨.ok ([], "", ""), .ok (), .ok "abcd",
         .ok "https://jaccount.sjtu.edu.cn/jaccount/jalogin?err=1",
         [("JSESSIONID", "tmp")]⟩).2.2 = fsEx := by
  exact c7_failed_login_preserves_cookies jaEx fsEx _ ([], "", "") "abcd"
    "https://jaccount.sjtu.edu.cn/jaccount/jalogin?err=1"
    rfl rfl rfl rfl (by decide)

/-! ## C6 — cookie persistence round-trip -/

theorem jarSet_append (acc : Cookies) (k v : String)
    (h : ∀ kv ∈ acc, kv.1 ≠ k) :
    jarSet acc k v = acc ++ [(k, v)] := by
  induction acc with
  | nil => rfl
  | cons hd tl ih =>
      obtain ⟨k', v'⟩ := hd
      have hne : k' ≠ k := h (k', v') (by simp)
      simp only [jarSet, if_neg hne, List.cons_append, List.cons.injEq, true_and]
      exact ih (fun kv hkv => h kv (by simp [hkv]))

/-- Setting pairwise-distinct fresh names into a jar appends them in order. -/
theorem foldl_jarSet_fresh (cs : Cookies) (acc : Cookies)
    (hnd : (cs.map Prod.fst).Nodup)
    (hdisj : ∀ kv ∈ acc, ∀ kv2 ∈ cs, kv.1 ≠ kv2.1) :
    cs.foldl (fun j kv => jarSet j kv.1 kv.2) acc = acc ++ cs := by
  induction cs generalizing acc with
  | nil => simp
  | cons hd tl ih =>
      obtain ⟨k, v⟩ := hd
      simp only [List.foldl_cons]
      have hstep : jarSet acc k v = acc ++ [(k, v)] :=
        jarSet_append acc k v
          (fun kv hkv => hdisj kv hkv (k, v) (List.mem_cons_self _ _))
      rw [hstep]
      rw [List.map_cons] at hnd
      have hpair := List.nodup_cons.mp hnd
      have hdisj' : ∀ kv ∈ acc ++ [(k, v)], ∀ kv2 ∈ tl, kv.1 ≠ kv2.1 := by
        intro kv hkv kv2 hkv2
        rcases List.mem_append.mp hkv with hacc | hone
        · exact hdisj kv hacc kv2 (List.mem_cons_of_mem _ hkv2)
        · have hkveq : kv = (k, v) := by simpa using hone
          subst hkveq
          intro hcon
          exact hpair.1 (by rw [hcon]; exact List.mem_map_of_mem Prod.fst hkv2)
      rw [ih (acc ++ [(k, v)]) hpair.2 hdisj']
      simp

/-- C6: saving a (non-empty, distinct-named) cookie set and constructing a
fresh login manager from the resulting file yields a client whose jar holds
exactly the persisted name-to-value pairs, in order. -/
theorem c6_cookie_roundtrip (cs : Cookies) (ja : JA) (fs : FsFile)
    (hja : ja.cookies = some cs)
    (hnd : (cs.map Prod.fst).Nodup) (hne : cs ≠ []) :
    save_cookies ja fs = some cs ∧
    (initJA (save_cookies ja fs)).jar = cs ∧
    (initJA (save_cookies ja fs)).cookies = some cs := by
  have hsave : save_cookies ja fs = some cs := by
    unfold save_cookies
    rw [hja]
    cases cs with
    | nil => exact absurd rfl hne
    | cons a b => rfl
  refine ⟨hsave, ?_, by rw [hsave]; rfl⟩
  rw [hsave]
  show cs.foldl (fun j kv => jarSet j kv.1 kv.2) [] = cs
  simpa using foldl_jarSet_fresh cs [] hnd (by simp)

/-- C6 witness: a concrete two-cookie set round-trips exactly. -/
theorem c6_witness :
    (⟨some [("a", "1"), ("b", "2")], [("a", "1"), ("b", "2")]⟩ : JA).cookies
      = some [("a", "1"), ("b", "2")] ∧
    save_cookies ⟨some [("a", "1"), ("b", "2")], [("a", "1"), ("b", "2")]⟩ none
      = some [("a", "1"), ("b", "2")] ∧
    (initJA (save_cookies ⟨some [("a", "1"), ("b", "2")],
        [("a", "1"), ("b", "2")]⟩ none)).jar = [("a", "1"), ("b", "2")] := by
  have h := c6_cookie_roundtrip [("a", "1"), ("b", "2")]
    ⟨some [("a", "1"), ("b", "2")], [("a", "1"), ("b", "2")]⟩ none
    rfl (by decide) (by decide)
  exact ⟨rfl, h.1, h.2.1⟩

/-! ## C8 — the credential-file save is not atomic -/

/-- C8 counterexample: interrupting a save right after the truncation
(`step = 1`) leaves an empty file — neither the old serialized cookie set
nor the new one.  `open(path, "w")` destroys the old content before
`json.dump` has produced a single character. -/
theorem c8_counterexample :
    fileDuringWrite (serializeCookies [("a", "1")])
        (serializeCookies [("b", "2")]) 1 ≠ serializeCookies [("a", "1")] ∧
    fileDuringWrite (serializeCookies [("a", "1")])
        (serializeCookies [("b", "2")]) 1 ≠ serializeCookies [("b", "2")] ∧
    fileDuringWrite (serializeCookies [("a", "1")])
        (serializeCookies [("b", "2")]) 1 = [] := by
  refine ⟨?_, ?_, rfl⟩ <;> decide

/-- C8 (amended): an uninterrupted save leaves the file holding exactly the
new serialization, but a save interrupted at any point after the open
leaves some prefix of the new serialization (possibly empty) — the old set
is destroyed before the new one is complete, so intermediate states are
neither the full old nor the full new set. -/
theorem c8_save_interruption_states (old : List Char) (ncs : Cookies)
    (step : Nat) :
    ((serializeCookies ncs).length < step →
      fileDuringWrite old (serializeCookies ncs) step = serializeCookies ncs) ∧
    (0 < step →
      fileDuringWrite old (serializeCookies ncs) step <+: serializeCookies ncs) := by
  constructor
  · intro hlt
    unfold fileDuringWrite
    rw [if_neg (by omega)]
    exact List.take_of_length_le (by omega)
  · intro hpos
    unfold fileDuringWrite
    rw [if_neg (by omega)]
    exact List.take_prefix _ _

/-- C8 witness: with one-cookie sets, a completed save (step 99) holds the
new serialization and the truncated state (step 1) is a prefix of it. -/
theorem c8_witness :
    (serializeCookies [("b", "2")]).length < 99 ∧
    fileDuringWrite (serializeCookies [("a", "1")])
        (serializeCookies [("b", "2")]) 99 = serializeCookies [("b", "2")] ∧
    fileDuringWrite (serializeCookies [("a", "1")])
        (serializeCookies [("b", "2")]) 1 <+: serializeCookies [("b", "2")] := by
  refine ⟨by decide, ?_, ?_⟩
  · exact (c8_save_interruption_states (serializeCookies [("a", "1")])
      [("b", "2")] 99).1 (by decide)
  · exact (c8_save_interruption_states (serializeCookies [("a", "1")])
      [("b", "2")] 1).2 (by decide)

end SJTUChatbot
